import Mathlib

/-!
Shallow embedding of the treatment/demand core of the newsvendor game
(`src/utk-games/shorthorizon/treatment.py`).

Modelling conventions:
* Python floats are modelled as real numbers (`ℝ`); `otree` `Currency`
  values (an external fixed-point decimal library) are modelled as exact
  rationals (`ℚ`), and `float(...)` conversions as the cast `ℚ → ℝ`.
* The mutable `Treatment` object is modelled by explicit state passing:
  each method returns its result together with the updated treatment.
* Fallible operations return `Option`/`Except`; a raised Python exception
  is an `Except.error`, and since the embedding is state passing, an error
  leaves the caller's treatment value untouched by construction (in the
  source the exceptions in question are raised before any mutation).
* `numpy.random.lognormal(mu, sigma, size)` is modelled by an oracle
  `ω : ℝ → ℝ → ℕ → ℝ` giving the value of each drawn sample; the drawn
  batch is `(List.range size).map (ω mu sigma)`, which fixes only what
  numpy guarantees: the batch has exactly `size` entries and is drawn
  from the distribution determined by the current `(mu, sigma)`.
* `scipy.stats.norm.ppf` (the inverse normal CDF) is an external
  deterministic function, modelled by an abstract parameter
  `ppf : ℝ → ℝ` that theorems quantify over.
-/

/-- One entry of the `DISTRIBUTIONS` table: the keyword arguments
`natural_mean` and `natural_sigma` of the Python `dict`. -/
structure Profile where
  natural_mean : ℚ
  natural_sigma : ℚ
deriving DecidableEq

/-- The fixed six-entry profile table `DISTRIBUTIONS` of `treatment.py`
(lines 85–92); the fourth entry repeats the third, with the source comment
"4th gets different costs". -/
def DISTRIBUTIONS : List Profile :=
  [⟨100, 50⟩, ⟨100, 100⟩, ⟨500, 150⟩, ⟨500, 150⟩, ⟨100, 50⟩, ⟨100, 100⟩]

/-- Python list subscription `xs[i]`: a negative index counts from the end,
an index out of range raises `IndexError` (here: `Option.none`). -/
def pyGetItem {α : Type} (xs : List α) (i : Int) : Option α :=
  let j : Int := if i < 0 then (xs.length : Int) + i else i
  if 0 ≤ j then xs.get? j.toNat else Option.none

/-- The `UnitCosts` pydantic model: retail / wholesale / salvage cost per
unit, with the default values `Currency(25)`, `Currency(14)`, `Currency(6)`. -/
structure UnitCosts where
  rcpu : ℚ := 25
  wcpu : ℚ := 14
  scpu : ℚ := 6
deriving DecidableEq

/-- `UnitCosts.tuple` (via `PydanticModel.tuple`): the attribute values in
field order. -/
def UnitCosts.tuple (u : UnitCosts) : ℚ × ℚ × ℚ :=
  (u.rcpu, u.wcpu, u.scpu)

/-- The `Treatment` pydantic model: the treatment index plus the private
mutable caches `_mu`, `_sigma` (both `None` until first derived) and
`_demand_rvs` (initially `[]`).

The source declares `idx: int = conint(strict=True, ge=0, le=5)`; the
`conint(...)` type is assigned as the field's *default value*, not as its
annotation, so in pydantic v1 the field is validated as a plain `int` and
the `ge`/`le` bounds are never applied.  The model therefore uses an
unrestricted `Int` for `idx`. -/
structure Treatment where
  idx : Int
  _mu : Option ℝ := Option.none
  _sigma : Option ℝ := Option.none
  _demand_rvs : List ℝ := []

/-- A freshly constructed `Treatment(idx=i)`: private attributes hold their
class-level defaults. -/
def Treatment.fresh (i : Int) : Treatment :=
  { idx := i }

/-- `UnitCosts.from_treatment` (treatment.py lines 104–108): the alternate
cost triple `(24, 5.5, 5)` when `treatment.idx == 3`, else the defaults. -/
def UnitCosts.from_treatment (t : Treatment) : UnitCosts :=
  if t.idx = 3 then { rcpu := 24, wcpu := 11/2, scpu := 5 } else {}

/-- `Treatment.get_unit_costs`. -/
def Treatment.get_unit_costs (t : Treatment) : UnitCosts :=
  UnitCosts.from_treatment t

/-- The critical fractile computed in `get_optimal_order_quantity`:
`underage_cost / (underage_cost + overage_cost)` with
`underage_cost = rcpu - wcpu` and `overage_cost = wcpu - scpu`. -/
def criticalFractile (u : UnitCosts) : ℚ :=
  (u.rcpu - u.wcpu) / ((u.rcpu - u.wcpu) + (u.wcpu - u.scpu))

/-- The `DisributionParameters` pydantic model (spelling as in the source):
log-normal location `mu` and scale `sigma`. -/
structure DisributionParameters where
  mu : ℝ
  sigma : ℝ

/-- `DisributionParameters.tuple`. -/
def DisributionParameters.tuple (p : DisributionParameters) : ℝ × ℝ :=
  (p.mu, p.sigma)

/-- The method-of-moments log-normal location fitted in
`DisributionParameters.from_treatment` (line 120):
`mu = log(natural_mean² / sqrt(natural_sigma² + natural_mean²))`. -/
noncomputable def fittedMu (p : Profile) : ℝ :=
  Real.log ((p.natural_mean : ℝ) ^ 2 /
    Real.sqrt ((p.natural_sigma : ℝ) ^ 2 + (p.natural_mean : ℝ) ^ 2))

/-- The method-of-moments log-normal scale fitted in
`DisributionParameters.from_treatment` (line 121):
`sigma = sqrt(log(natural_sigma² / natural_mean² + 1))`. -/
noncomputable def fittedSigma (p : Profile) : ℝ :=
  Real.sqrt (Real.log ((p.natural_sigma : ℝ) ^ 2 / (p.natural_mean : ℝ) ^ 2 + 1))

/-- `DisributionParameters.from_treatment` (lines 115–122): look the profile
up by `treatment.idx` in `DISTRIBUTIONS` (raising `IndexError`, i.e.
`Option.none`, when the subscription fails) and apply the method-of-moments
log-normal fit. -/
noncomputable def DisributionParameters.from_treatment (t : Treatment) :
    Option DisributionParameters :=
  (pyGetItem DISTRIBUTIONS t.idx).map fun p =>
    { mu := fittedMu p, sigma := fittedSigma p }

/-- `Treatment.get_distribution_parameters` (lines 168–171): if either
`_mu` or `_sigma` is `None`, derive both from the profile table and cache
them; return a `DisributionParameters` built from the cached values
together with the updated treatment. -/
noncomputable def Treatment.get_distribution_parameters (t : Treatment) :
    Option (DisributionParameters × Treatment) :=
  match t._mu, t._sigma with
  | Option.some m, Option.some s => Option.some ({ mu := m, sigma := s }, t)
  | _, _ =>
    (DisributionParameters.from_treatment t).map fun p =>
      (p, { t with _mu := Option.some p.mu, _sigma := Option.some p.sigma })

/-- `Treatment.get_optimal_order_quantity` (lines 152–163), parameterised
by the inverse normal CDF `ppf` (`scipy.stats.norm.ppf`).  Returns the
order quantity together with the treatment as left by the embedded
`get_distribution_parameters` call. -/
noncomputable def Treatment.get_optimal_order_quantity (ppf : ℝ → ℝ)
    (t : Treatment) : Option (ℝ × Treatment) :=
  let u := t.get_unit_costs
  let overage_cost : ℚ := u.wcpu - u.scpu
  let underage_cost : ℚ := u.rcpu - u.wcpu
  let cf : ℝ := ((underage_cost / (underage_cost + overage_cost) : ℚ) : ℝ)
  t.get_distribution_parameters |>.map fun pt =>
    let mu := pt.1.mu
    let sigma := pt.1.sigma
    let natural_mean := Real.exp (mu + (1 / 2 : ℝ) * sigma ^ 2)
    let natural_sigma :=
      Real.sqrt ((Real.exp (sigma ^ 2) - 1) * Real.exp (2 * mu + sigma ^ 2))
    (natural_mean * Real.exp (ppf cf * sigma), pt.2)

/-- The Python value passed as the `size` argument of `get_demand_rvs`:
`None` (the default), an `int`, or a value of any other type. -/
inductive PySize where
  | none
  | int (i : Int)
  | nonInt
deriving DecidableEq

/-- Python exceptions raised by the embedded methods. -/
inductive PyError where
  | assertionError
  | indexError
deriving DecidableEq

/-- The batch drawn by `np.random.lognormal(mu, sigma, size).tolist()`,
for the sampling oracle `ω`. -/
def drawLognormal (ω : ℝ → ℝ → ℕ → ℝ) (mu sigma : ℝ) (size : ℕ) : List ℝ :=
  (List.range size).map (ω mu sigma)

/-- `Treatment.get_demand_rvs` (lines 173–189): default the size to `10⁴`,
assert it is a positive `int` (`AssertionError` otherwise), return the
cached batch when it has exactly `size` entries and no disruption is
requested, else derive/cache the distribution parameters, double `_sigma`
(and multiply `_mu` by 1) when `disrupt` is set, then draw and cache a
fresh batch. -/
noncomputable def Treatment.get_demand_rvs (ω : ℝ → ℝ → ℕ → ℝ) (t : Treatment)
    (size : PySize) (disrupt : Bool) : Except PyError (List ℝ × Treatment) :=
  let sz : PySize := match size with
    | PySize.none => PySize.int 10000
    | s => s
  match sz with
  | PySize.int i =>
    if 0 < i then
      if t._demand_rvs.length = i.toNat ∧ disrupt = false then
        Except.ok (t._demand_rvs, t)
      else
        match t.get_distribution_parameters with
        | Option.none => Except.error PyError.indexError
        | Option.some (p, t1) =>
          if disrupt then
            let sigma2 := p.sigma * 2
            let mu2 := p.mu * 1
            let rvs := drawLognormal ω mu2 sigma2 i.toNat
            Except.ok (rvs, { t1 with _mu := Option.some mu2,
                                      _sigma := Option.some sigma2,
                                      _demand_rvs := rvs })
          else
            let rvs := drawLognormal ω p.mu p.sigma i.toNat
            Except.ok (rvs, { t1 with _demand_rvs := rvs })
    else Except.error PyError.assertionError
  | _ => Except.error PyError.assertionError

/-- `n` successive `get_demand_rvs(size=sz, disrupt=True)` calls, threading
the treatment state; the first raised exception propagates. -/
noncomputable def iterDisrupt (ω : ℝ → ℝ → ℕ → ℝ) (sz : Int) :
    ℕ → Treatment → Except PyError Treatment
  | 0, t => Except.ok t
  | n + 1, t =>
    match t.get_demand_rvs ω (PySize.int sz) true with
    | Except.ok (_, t1) => iterDisrupt ω sz n t1
    | Except.error e => Except.error e

/-- The serialized form of a `Treatment` as far as deserialization is
concerned: either malformed input (invalid JSON, or an `idx` value that
pydantic cannot validate as an `int`), or a blob carrying an integer
`idx`. -/
inductive Blob where
  | malformed
  | withIdx (i : Int)
deriving DecidableEq

/-- The pydantic exception raised when `parse_raw` fails. -/
inductive PydanticError where
  | validationError
deriving DecidableEq

/-- `PydanticModel.json` restricted to `Treatment` (lines 59–82): the
declared pydantic fields of `Treatment` are exactly `{idx}` (the
underscore-prefixed caches are private attributes and are not serialized),
so the blob carries `idx` alone. -/
def Treatment.json (t : Treatment) : Blob :=
  Blob.withIdx t.idx

/-- `Treatment.from_json` (lines 148–150), i.e. `Treatment.parse_raw`:
malformed input raises a pydantic `ValidationError`; a blob with an
integer `idx` is accepted for *every* integer, because the source's
`idx: int = conint(strict=True, ge=0, le=5)` assigns the constrained type
as the field's default value instead of its annotation, so the `ge`/`le`
bounds are never enforced.  Private attributes start from their
defaults. -/
def Treatment.from_json (blob : Blob) : Except PydanticError Treatment :=
  match blob with
  | Blob.withIdx i => Except.ok { idx := i }
  | Blob.malformed => Except.error PydanticError.validationError

/-- The `i`-th entry of the profile table, for an in-range index. -/
def profile (i : Fin 6) : Profile :=
  DISTRIBUTIONS.get (Fin.cast (by rfl) i)

/-! ### Helper lemmas -/

lemma pyGetItem_DISTRIBUTIONS (i : Fin 6) :
    pyGetItem DISTRIBUTIONS (i.val : Int) = Option.some (profile i) := by
  fin_cases i <;> rfl

lemma get_distribution_parameters_cached (t : Treatment) (m s : ℝ)
    (hm : t._mu = Option.some m) (hs : t._sigma = Option.some s) :
    t.get_distribution_parameters = Option.some ({ mu := m, sigma := s }, t) := by
  unfold Treatment.get_distribution_parameters
  rw [hm, hs]

lemma get_distribution_parameters_fresh (i : Fin 6) :
    (Treatment.fresh i.val).get_distribution_parameters =
      Option.some ({ mu := fittedMu (profile i), sigma := fittedSigma (profile i) },
        { idx := i.val, _mu := Option.some (fittedMu (profile i)),
          _sigma := Option.some (fittedSigma (profile i)), _demand_rvs := [] }) := by
  unfold Treatment.get_distribution_parameters DisributionParameters.from_treatment
  show ((pyGetItem DISTRIBUTIONS ((i.val : Int))).map _).map _ = _
  rw [pyGetItem_DISTRIBUTIONS]
  rfl

lemma get_demand_rvs_hit (ω : ℝ → ℝ → ℕ → ℝ) (t : Treatment) (n : Int)
    (hn : 0 < n) (hlen : t._demand_rvs.length = n.toNat) :
    t.get_demand_rvs ω (PySize.int n) false = Except.ok (t._demand_rvs, t) := by
  unfold Treatment.get_demand_rvs
  simp [hn, hlen]

lemma get_demand_rvs_miss (ω : ℝ → ℝ → ℕ → ℝ) (t t1 : Treatment)
    (p : DisributionParameters) (n : Int) (hn : 0 < n)
    (hmiss : ¬ t._demand_rvs.length = n.toNat)
    (hd : t.get_distribution_parameters = Option.some (p, t1)) :
    t.get_demand_rvs ω (PySize.int n) false =
      Except.ok (drawLognormal ω p.mu p.sigma n.toNat,
        { t1 with _demand_rvs := drawLognormal ω p.mu p.sigma n.toNat }) := by
  unfold Treatment.get_demand_rvs
  simp [hn, hmiss, hd]

lemma get_demand_rvs_disrupt (ω : ℝ → ℝ → ℕ → ℝ) (t t1 : Treatment)
    (p : DisributionParameters) (n : Int) (hn : 0 < n)
    (hd : t.get_distribution_parameters = Option.some (p, t1)) :
    t.get_demand_rvs ω (PySize.int n) true =
      Except.ok (drawLognormal ω p.mu (p.sigma * 2) n.toNat,
        { t1 with _mu := Option.some p.mu,
                  _sigma := Option.some (p.sigma * 2),
                  _demand_rvs := drawLognormal ω p.mu (p.sigma * 2) n.toNat }) := by
  unfold Treatment.get_demand_rvs
  simp [hn, hd, mul_one]

lemma drawLognormal_length (ω : ℝ → ℝ → ℕ → ℝ) (mu sigma : ℝ) (size : ℕ) :
    (drawLognormal ω mu sigma size).length = size := by
  simp [drawLognormal]

/-! ### Claim theorems -/

/-- C4: `getUnitCosts` returns the alternate cost triple
`(rcpu=24, wcpu=5.5, scpu=5)` iff the treatment index equals 3 and the
default triple `(rcpu=25, wcpu=14, scpu=6)` for every other index; the
result is a pure function of `t.idx` (the right-hand side mentions no
other component of the treatment state, and the method neither reads nor
writes anything else). -/
theorem getUnitCosts_alternate_iff_index3 (t : Treatment) :
    t.get_unit_costs =
      (if t.idx = 3 then { rcpu := 24, wcpu := 11/2, scpu := 5 }
       else { rcpu := 25, wcpu := 14, scpu := 6 }) := rfl

/-- C6 (code bug): deserialization does reject malformed blobs with a
`ValidationError`, but a well-formed blob whose index is out of range
0..5 is accepted: `Treatment.from_json` on a blob with `idx = 6` returns
a treatment with index 6 instead of failing, because the source assigns
`conint(strict=True, ge=0, le=5)` as the *default value* of `idx` rather
than as its type annotation, so the bounds are never enforced. -/
theorem from_json_accepts_out_of_range_index :
    Treatment.from_json (Blob.withIdx 6)
      = Except.ok { idx := 6, _mu := Option.none, _sigma := Option.none,
                    _demand_rvs := [] }
    ∧ Treatment.from_json Blob.malformed
      = Except.error PydanticError.validationError :=
  ⟨rfl, rfl⟩

/-- C8: for every treatment with valid index 0..5, deserializing the
serialization (`Treatment.from_json(t.json())`) succeeds and yields a
treatment whose index equals `t`'s index. -/
theorem from_json_json_roundtrip_index (t : Treatment)
    (h0 : 0 ≤ t.idx) (h5 : t.idx ≤ 5) :
    ∃ t' : Treatment, Treatment.from_json t.json = Except.ok t'
      ∧ t'.idx = t.idx :=
  ⟨{ idx := t.idx }, rfl, rfl⟩

/-- Witness for C8 at the concrete treatment `Treatment(idx=2)`. -/
theorem from_json_json_roundtrip_index_witness :
    0 ≤ (Treatment.fresh 2).idx ∧ (Treatment.fresh 2).idx ≤ 5
    ∧ ∃ t' : Treatment,
        Treatment.from_json (Treatment.fresh 2).json = Except.ok t'
        ∧ t'.idx = (Treatment.fresh 2).idx :=
  ⟨by decide, by decide,
    from_json_json_roundtrip_index (Treatment.fresh 2) (by decide) (by decide)⟩

/-- C10: the profile table has duplicate entries — indices 2 and 3 share
`(500, 150)`, 0 and 4 share `(100, 50)`, 1 and 5 share `(100, 100)` — so
`get_distribution_parameters` returns identical `(mu, sigma)` for each
such pair of fresh treatments; in particular treatments 2 and 3 have the
same demand distribution and differ in their unit costs. -/
theorem distributions_duplicate_profiles :
    DISTRIBUTIONS.get? 2 = DISTRIBUTIONS.get? 3
    ∧ DISTRIBUTIONS.get? 0 = DISTRIBUTIONS.get? 4
    ∧ DISTRIBUTIONS.get? 1 = DISTRIBUTIONS.get? 5
    ∧ DISTRIBUTIONS.get? 2 = Option.some ⟨500, 150⟩
    ∧ DISTRIBUTIONS.get? 0 = Option.some ⟨100, 50⟩
    ∧ DISTRIBUTIONS.get? 1 = Option.some ⟨100, 100⟩
    ∧ Option.map Prod.fst (Treatment.fresh 2).get_distribution_parameters
        = Option.map Prod.fst (Treatment.fresh 3).get_distribution_parameters
    ∧ Option.map Prod.fst (Treatment.fresh 0).get_distribution_parameters
        = Option.map Prod.fst (Treatment.fresh 4).get_distribution_parameters
    ∧ Option.map Prod.fst (Treatment.fresh 1).get_distribution_parameters
        = Option.map Prod.fst (Treatment.fresh 5).get_distribution_parameters
    ∧ (Treatment.fresh 2).get_unit_costs ≠ (Treatment.fresh 3).get_unit_costs :=
  ⟨rfl, rfl, rfl, rfl, rfl, rfl, rfl, rfl, rfl, by decide⟩

lemma get_optimal_order_quantity_eq (ppf : ℝ → ℝ) (t t1 : Treatment)
    (p : DisributionParameters)
    (hd : t.get_distribution_parameters = Option.some (p, t1)) :
    t.get_optimal_order_quantity ppf =
      Option.some (Real.exp (p.mu + (1 / 2 : ℝ) * p.sigma ^ 2)
        * Real.exp (ppf ((criticalFractile t.get_unit_costs : ℚ) : ℝ) * p.sigma),
        t1) := by
  unfold Treatment.get_optimal_order_quantity
  rw [hd]
  rfl

/-- C1: for every treatment index in 0..5, `get_optimal_order_quantity`
computes the critical fractile `cf = (rcpu - wcpu) / ((rcpu - wcpu) +
(wcpu - scpu))` from that treatment's unit costs and returns
`exp(mu + sigma² / 2) * exp(ppf(cf) * sigma)` — the log-normal quantile
at probability `cf` — where `(mu, sigma)` are the treatment's fitted
distribution parameters; in particular for index 0 with the default
costs `(25, 14, 6)` the fractile `cf` equals `11/19`. -/
theorem getOptimalOrderQuantity_formula (ppf : ℝ → ℝ) (i : Fin 6) :
    Option.map Prod.fst ((Treatment.fresh i.val).get_optimal_order_quantity ppf)
      = Option.some (Real.exp (fittedMu (profile i) + fittedSigma (profile i) ^ 2 / 2)
          * Real.exp (ppf ((criticalFractile (Treatment.fresh i.val).get_unit_costs : ℚ) : ℝ)
              * fittedSigma (profile i)))
    ∧ criticalFractile (Treatment.fresh 0).get_unit_costs = 11 / 19 := by
  constructor
  · rw [get_optimal_order_quantity_eq ppf _ _ _ (get_distribution_parameters_fresh i)]
    simp only [Option.map_some']
    ring_nf
  · norm_num [criticalFractile, Treatment.get_unit_costs, UnitCosts.from_treatment,
      Treatment.fresh]

/-- C2: for every treatment index in 0..5, the first
`get_distribution_parameters` call returns
`mu = log(m² / sqrt(s² + m²))` and `sigma = sqrt(log(s² / m² + 1))`
where `(m, s)` are the `(natural_mean, natural_sigma)` of the `i`-th
entry of the fixed profile table; the pair is cached on the treatment
(`_mu`/`_sigma`), and a subsequent call on the cached treatment returns
the same pair and the same (unchanged) treatment. -/
theorem getDistributionParameters_fit_and_cache (i : Fin 6) :
    ∃ t1 : Treatment,
      (Treatment.fresh i.val).get_distribution_parameters
        = Option.some
            ({ mu := Real.log (((profile i).natural_mean : ℝ) ^ 2 /
                  Real.sqrt (((profile i).natural_sigma : ℝ) ^ 2
                    + ((profile i).natural_mean : ℝ) ^ 2)),
               sigma := Real.sqrt (Real.log (((profile i).natural_sigma : ℝ) ^ 2 /
                  ((profile i).natural_mean : ℝ) ^ 2 + 1)) }, t1)
      ∧ t1._mu = Option.some (fittedMu (profile i))
      ∧ t1._sigma = Option.some (fittedSigma (profile i))
      ∧ t1.get_distribution_parameters
          = Option.some ({ mu := fittedMu (profile i),
                           sigma := fittedSigma (profile i) }, t1) := by
  refine ⟨_, get_distribution_parameters_fresh i, rfl, rfl, ?_⟩
  exact get_distribution_parameters_cached _ _ _ rfl rfl

/-- C9: for each of the six fixed treatment profiles,
`get_optimal_order_quantity` returns a (well-defined, hence finite)
non-negative value; the result is deterministic given the index — the
fresh-treatment computation is a pure function of `i`, and a repeated
call on the resulting cached treatment returns the same value again. -/
theorem getOptimalOrderQuantity_nonneg_deterministic (ppf : ℝ → ℝ) (i : Fin 6) :
    ∃ q : ℝ, ∃ t1 : Treatment,
      (Treatment.fresh i.val).get_optimal_order_quantity ppf
        = Option.some (q, t1)
      ∧ 0 ≤ q
      ∧ t1.get_optimal_order_quantity ppf = Option.some (q, t1) := by
  refine ⟨_, _, get_optimal_order_quantity_eq ppf _ _ _
    (get_distribution_parameters_fresh i), ?_, ?_⟩
  · positivity
  · exact get_optimal_order_quantity_eq ppf _ _ _
      (get_distribution_parameters_cached _ _ _ rfl rfl)

lemma pyGetItem_total (i : Int) (h0 : 0 ≤ i) (h6 : i < 6) :
    ∃ p : Profile, pyGetItem DISTRIBUTIONS i = Option.some p := by
  have hnat : i.toNat < DISTRIBUTIONS.length := by
    simp only [DISTRIBUTIONS, List.length]
    omega
  refine ⟨DISTRIBUTIONS.get ⟨i.toNat, hnat⟩, ?_⟩
  have hneg : ¬ i < 0 := by omega
  simp only [pyGetItem, hneg, if_false, h0, if_true]
  rw [List.get?_eq_get hnat]

lemma get_distribution_parameters_total (t : Treatment)
    (h0 : 0 ≤ t.idx) (h6 : t.idx < 6) :
    ∃ p : DisributionParameters, ∃ t1 : Treatment,
      t.get_distribution_parameters = Option.some (p, t1) := by
  obtain ⟨pr, hpr⟩ := pyGetItem_total t.idx h0 h6
  unfold Treatment.get_distribution_parameters
  rcases hmu : t._mu with _ | m <;> rcases hsig : t._sigma with _ | s
  all_goals
    simp only [DisributionParameters.from_treatment, hpr, Option.map_some']
  · exact ⟨_, _, rfl⟩
  · exact ⟨_, _, rfl⟩
  · exact ⟨_, _, rfl⟩
  · exact ⟨_, _, rfl⟩

/-- C7: `get_demand_rvs` validates its `size` argument first: a
non-positive integer or a non-integer value raises `AssertionError`
before any computation (the state-passing embedding returns no updated
treatment on error, so the caller's treatment — caches included — is
untouched by construction); for every positive integer size the call
does not raise (for a treatment whose index satisfies the data-model
invariant 0..5). -/
theorem getDemandRvs_size_validation (ω : ℝ → ℝ → ℕ → ℝ) (t : Treatment)
    (disrupt : Bool) (h0 : 0 ≤ t.idx) (h6 : t.idx < 6) :
    (∀ i : Int, i ≤ 0 → t.get_demand_rvs ω (PySize.int i) disrupt
        = Except.error PyError.assertionError)
    ∧ t.get_demand_rvs ω PySize.nonInt disrupt
        = Except.error PyError.assertionError
    ∧ ∀ i : Int, 0 < i →
        ∃ r : List ℝ × Treatment,
          t.get_demand_rvs ω (PySize.int i) disrupt = Except.ok r := by
  refine ⟨?_, rfl, ?_⟩
  · intro i hi
    have hni : ¬ 0 < i := by omega
    unfold Treatment.get_demand_rvs
    simp [hni]
  · intro i hi
    obtain ⟨p, t1, hd⟩ := get_distribution_parameters_total t h0 h6
    by_cases hcache : t._demand_rvs.length = i.toNat ∧ disrupt = false
    · obtain ⟨hlen, hdis⟩ := hcache
      subst hdis
      exact ⟨_, get_demand_rvs_hit ω t i hi hlen⟩
    · cases disrupt with
      | false =>
        have hne : ¬ t._demand_rvs.length = i.toNat := fun h => hcache ⟨h, rfl⟩
        exact ⟨_, get_demand_rvs_miss ω t t1 p i hi hne hd⟩
      | true =>
        exact ⟨_, get_demand_rvs_disrupt ω t t1 p i hi hd⟩

/-- Witness for C7 at the fresh treatment `Treatment(idx=0)` with
`disrupt = false` and a trivial sampling oracle. -/
theorem getDemandRvs_size_validation_witness :
    0 ≤ (Treatment.fresh 0).idx ∧ (Treatment.fresh 0).idx < 6
    ∧ ((∀ i : Int, i ≤ 0 →
          (Treatment.fresh 0).get_demand_rvs (fun _ _ _ => 0) (PySize.int i) false
            = Except.error PyError.assertionError)
        ∧ (Treatment.fresh 0).get_demand_rvs (fun _ _ _ => 0) PySize.nonInt false
            = Except.error PyError.assertionError
        ∧ ∀ i : Int, 0 < i →
            ∃ r : List ℝ × Treatment,
              (Treatment.fresh 0).get_demand_rvs (fun _ _ _ => 0) (PySize.int i) false
                = Except.ok r) :=
  ⟨by decide, by decide,
    getDemandRvs_size_validation (fun _ _ _ => 0) (Treatment.fresh 0) false
      (by decide) (by decide)⟩

/-- C5: if the cached sample batch has exactly `n` entries, a
`get_demand_rvs(size=n, disrupt=False)` call returns that batch unchanged
and leaves the whole treatment state unchanged (so two consecutive such
calls return the identical sequence), while a call with a different size
`m` replaces the cache with a freshly drawn sequence of length `m` and
returns it. -/
theorem demand_sample_cache_reuse (ω : ℝ → ℝ → ℕ → ℝ) (t : Treatment)
    (n m : Int) (mu sigma : ℝ)
    (hn : 0 < n) (hcache : t._demand_rvs.length = n.toNat)
    (hm : 0 < m) (hne : ¬ t._demand_rvs.length = m.toNat)
    (hmu : t._mu = Option.some mu) (hsigma : t._sigma = Option.some sigma) :
    t.get_demand_rvs ω (PySize.int n) false = Except.ok (t._demand_rvs, t)
    ∧ ∃ rvs : List ℝ,
        t.get_demand_rvs ω (PySize.int m) false
          = Except.ok (rvs, { t with _demand_rvs := rvs })
        ∧ rvs.length = m.toNat := by
  refine ⟨get_demand_rvs_hit ω t n hn hcache,
    drawLognormal ω mu sigma m.toNat, ?_, drawLognormal_length ω mu sigma m.toNat⟩
  exact get_demand_rvs_miss ω t t ⟨mu, sigma⟩ m hm hne
    (get_distribution_parameters_cached t mu sigma hmu hsigma)

/-- A concrete treatment with cached parameters `(0, 1)` and a cached
one-element sample batch, used to witness the cache-reuse claim. -/
def cachedSampleTreatment : Treatment :=
  { idx := 0, _mu := Option.some 0, _sigma := Option.some 1, _demand_rvs := [0] }

/-- Witness for C5: `cachedSampleTreatment` read back at size 1 and
redrawn at size 2. -/
theorem demand_sample_cache_reuse_witness :
    (0 : Int) < 1 ∧ (0 : Int) < 2
    ∧ cachedSampleTreatment._demand_rvs.length = (1 : Int).toNat
    ∧ ¬ cachedSampleTreatment._demand_rvs.length = (2 : Int).toNat
    ∧ cachedSampleTreatment._mu = Option.some 0
    ∧ cachedSampleTreatment._sigma = Option.some 1
    ∧ (cachedSampleTreatment.get_demand_rvs (fun _ _ _ => 0) (PySize.int 1) false
          = Except.ok (cachedSampleTreatment._demand_rvs, cachedSampleTreatment)
        ∧ ∃ rvs : List ℝ,
            cachedSampleTreatment.get_demand_rvs (fun _ _ _ => 0) (PySize.int 2) false
              = Except.ok (rvs, { cachedSampleTreatment with _demand_rvs := rvs })
            ∧ rvs.length = (2 : Int).toNat) :=
  ⟨by decide, by decide, by decide, by decide, rfl, rfl,
    demand_sample_cache_reuse (fun _ _ _ => 0) cachedSampleTreatment
      1 2 0 1 (by decide) (by decide) (by decide) (by decide) rfl rfl⟩

lemma iterDisrupt_cached (ω : ℝ → ℝ → ℕ → ℝ) (sz : Int) (hsz : 0 < sz)
    (m : ℝ) (n : ℕ) :
    ∀ (t : Treatment) (s : ℝ), t._mu = Option.some m →
      t._sigma = Option.some s →
      ∃ t' : Treatment, iterDisrupt ω sz n t = Except.ok t'
        ∧ t'._mu = Option.some m
        ∧ t'._sigma = Option.some (2 ^ n * s)
        ∧ t'.idx = t.idx
        ∧ (t'._demand_rvs = t._demand_rvs
            ∨ t'._demand_rvs.length = sz.toNat) := by
  induction n with
  | zero =>
    intro t s hm hs
    exact ⟨t, rfl, hm, by rw [hs]; norm_num, rfl, Or.inl rfl⟩
  | succ n ih =>
    intro t s hm hs
    have hd := get_distribution_parameters_cached t m s hm hs
    have hstep := get_demand_rvs_disrupt ω t t ⟨m, s⟩ sz hsz hd
    obtain ⟨t', h1, h2, h3, h4, h5⟩ :=
      ih { t with _mu := Option.some m,
                  _sigma := Option.some (s * 2),
                  _demand_rvs := drawLognormal ω m (s * 2) sz.toNat }
         (s * 2) rfl rfl
    refine ⟨t', ?_, h2, ?_, h4, ?_⟩
    · show iterDisrupt ω sz (n + 1) t = Except.ok t'
      unfold iterDisrupt
      rw [hstep]
      exact h1
    · rw [h3]
      congr 1
      ring
    · rcases h5 with h5 | h5
      · right
        rw [h5]
        exact drawLognormal_length ω m (s * 2) sz.toNat
      · right
        exact h5

/-- C3: each `get_demand_rvs(disrupt=True)` call multiplies the cached
`sigma` by exactly 2 and leaves `mu` unchanged, so `n + 1` such calls
starting from a fresh treatment with index in 0..5 yield
`sigma = 2^(n+1)` times the fitted sigma (compounding, not idempotent);
afterwards neither `get_distribution_parameters` nor a
`get_demand_rvs(disrupt=False)` call reverts `sigma`: both return the
treatment completely unchanged. -/
theorem disrupt_doubles_sigma_permanently (ω : ℝ → ℝ → ℕ → ℝ) (i : Fin 6)
    (n : ℕ) (sz : Int) (hsz : 0 < sz) :
    ∃ t' : Treatment,
      iterDisrupt ω sz (n + 1) (Treatment.fresh i.val) = Except.ok t'
      ∧ t'._mu = Option.some (fittedMu (profile i))
      ∧ t'._sigma = Option.some (2 ^ (n + 1) * fittedSigma (profile i))
      ∧ t'.get_distribution_parameters
          = Option.some ({ mu := fittedMu (profile i),
                           sigma := 2 ^ (n + 1) * fittedSigma (profile i) }, t')
      ∧ t'.get_demand_rvs ω (PySize.int sz) false
          = Except.ok (t'._demand_rvs, t') := by
  have hd := get_distribution_parameters_fresh i
  have hstep := get_demand_rvs_disrupt ω (Treatment.fresh i.val) _
    ⟨fittedMu (profile i), fittedSigma (profile i)⟩ sz hsz hd
  obtain ⟨t', h1, h2, h3, h4, h5⟩ :=
    iterDisrupt_cached ω sz hsz (fittedMu (profile i)) n
      { idx := (i.val : Int),
        _mu := Option.some (fittedMu (profile i)),
        _sigma := Option.some (fittedSigma (profile i) * 2),
        _demand_rvs := drawLognormal ω (fittedMu (profile i))
          (fittedSigma (profile i) * 2) sz.toNat }
      (fittedSigma (profile i) * 2) rfl rfl
  have hsig : t'._sigma = Option.some (2 ^ (n + 1) * fittedSigma (profile i)) := by
    rw [h3]
    congr 1
    ring
  have hlen : t'._demand_rvs.length = sz.toNat := by
    rcases h5 with h5 | h5
    · rw [h5]
      exact drawLognormal_length ω (fittedMu (profile i))
        (fittedSigma (profile i) * 2) sz.toNat
    · exact h5
  refine ⟨t', ?_, h2, hsig, ?_, ?_⟩
  · show iterDisrupt ω sz (n + 1) (Treatment.fresh i.val) = Except.ok t'
    unfold iterDisrupt
    rw [hstep]
    exact h1
  · exact get_distribution_parameters_cached t' _ _ h2 hsig
  · exact get_demand_rvs_hit ω t' sz hsz hlen

/-- Witness for C3: index 0, two disrupting calls of size 3, trivial
sampling oracle. -/
theorem disrupt_doubles_sigma_permanently_witness :
    (0 : Int) < 3
    ∧ ∃ t' : Treatment,
        iterDisrupt (fun _ _ _ => 0) 3 (1 + 1)
            (Treatment.fresh (0 : Fin 6).val) = Except.ok t'
        ∧ t'._mu = Option.some (fittedMu (profile (0 : Fin 6)))
        ∧ t'._sigma = Option.some (2 ^ (1 + 1) * fittedSigma (profile (0 : Fin 6)))
        ∧ t'.get_distribution_parameters
            = Option.some ({ mu := fittedMu (profile (0 : Fin 6)),
                             sigma := 2 ^ (1 + 1)
                               * fittedSigma (profile (0 : Fin 6)) }, t')
        ∧ t'.get_demand_rvs (fun _ _ _ => 0) (PySize.int 3) false
            = Except.ok (t'._demand_rvs, t') :=
  ⟨by decide,
    disrupt_doubles_sigma_permanently (fun _ _ _ => 0) 0 1 3 (by decide)⟩
